import Mathlib

/-!
Verification of the QwiicSerlcdU driver (qwiic_serlcd_u.py), a MicroPython
driver for SparkFun serial LCDs.  The driver is embedded shallowly:

* The handle object is the structure `LCDState`, mirroring the mutable
  attributes `address`, `lcd_columns`, `lcd_rows`, `last_refreshed`,
  `index`, `_displayControl` and `_displayMode`.
* Every bus write performed by a method is recorded as a `Sent` value
  (`Sent.cmds` for `send_commands`, which wraps its block in a bytearray,
  and `Sent.text` for `send_text`, which writes a string).
* The transport (`i2c.writeto`) reports success or failure through its
  return value, which the driver stores in `result` and returns; following
  that convention (`begin` combines such results with `bool(...) &`), the
  outcome of each write that a method returns is a `Bool` parameter `ok`.
  A method that returns the write result yields `ret = some ok`; a method
  that falls off the end (Python returns `None`) yields `ret = none`, and
  such methods discard the outcomes of their writes entirely, so they take
  no outcome parameter.
* Python string slicing `s[a:b]` (with nonnegative bounds) is `pySlice`;
  strings are lists of characters.
* Python `x &= ~m` on nonnegative ints clears in `x` the bits set in `m`;
  since `x &&& m` is a submask of `x`, this is the subtraction
  `x - (x &&& m)`, written `clearBits x m`.
* The millisecond tick counter is modelled as `Int`; `utime.ticks_diff`
  is subtraction.  Sleeps and settle delays have no observable effect on
  the modelled state and are not recorded.
-/

namespace SerLCD

/-! ### Module-level constants of qwiic_serlcd_u.py -/

def MAX_ROWS : Nat := 4
def MAX_COLUMNS : Nat := 20

def SPECIAL_COMMAND : Nat := 254
def SETTING_COMMAND : Nat := 0x7C

def CLEAR_COMMAND : Nat := 0x2D
def CONTRAST_COMMAND : Nat := 0x18
def ADDRESS_COMMAND : Nat := 0x19
def SET_RGB_COMMAND : Nat := 0x2B
def ENABLE_SYSTEM_MESSAGE_DISPLAY : Nat := 0x2E
def DISABLE_SYSTEM_MESSAGE_DISPLAY : Nat := 0x2F
def ENABLE_SPLASH_DISPLAY : Nat := 0x30
def DISABLE_SPLASH_DISPLAY : Nat := 0x31
def SAVE_CURRENT_DISPLAY_AS_SPLASH : Nat := 0x0A

def LCD_RETURNHOME : Nat := 0x02
def LCD_ENTRYMODESET : Nat := 0x04
def LCD_DISPLAYCONTROL : Nat := 0x08
def LCD_CURSORSHIFT : Nat := 0x10
def LCD_SETDDRAMADDR : Nat := 0x80

def LCD_ENTRYLEFT : Nat := 0x02
def LCD_ENTRYSHIFTDECREMENT : Nat := 0x00

def LCD_DISPLAYON : Nat := 0x04
def LCD_CURSOROFF : Nat := 0x00
def LCD_CURSORON : Nat := 0x02
def LCD_BLINKON : Nat := 0x01
def LCD_BLINKOFF : Nat := 0x00

/-- Python slice `s[a:b]` for nonnegative bounds on a string viewed as a
list of characters. -/
def pySlice (s : List Char) (a b : Nat) : List Char :=
  (s.drop a).take (b - a)

/-- Python `x & ~m` on nonnegative ints: clear in `x` every bit set in
`m`.  The bits of `x &&& m` form a submask of `x`, so subtracting clears
exactly those bits. -/
def clearBits (x m : Nat) : Nat := x - (x &&& m)

/-- `utime.ticks_diff` on the modelled (non-wrapping) tick counter. -/
def ticks_diff (a b : Int) : Int := a - b

/-- The mutable attributes of a `QwiicSerlcdU` object.  `displayControl`
and `displayMode` mirror `self._displayControl` and `self._displayMode`
(class attributes shadowed per instance on first write). -/
structure LCDState where
  address : Nat
  lcd_columns : Nat
  lcd_rows : Nat
  last_refreshed : Int
  index : Nat
  displayControl : Nat
  displayMode : Nat
deriving DecidableEq, Repr

/-- One bus write: `send_commands` wraps a block of command bytes in a
bytearray, `send_text` writes the text itself. -/
inductive Sent where
  | cmds (block : List Nat)
  | text (data : List Char)
deriving DecidableEq, Repr

/-- Observable outcome of one method call: the updated handle state, the
chronological list of bus writes it performed, and its return value
(`some b` when the method returns the transport result `b`, `none` when
the Python method returns `None`). -/
structure OpResult where
  state : LCDState
  sends : List Sent
  ret : Option Bool
deriving DecidableEq, Repr

/-- `__init__(self, i2c, i2c_address, lcd_columns, lcd_rows)`:
stores the address and geometry, stamps `last_refreshed` with the current
ticks and zeroes the scroll index; the display-control and display-mode
bitfields start at their class-level values. -/
def initState (i2c_address lcd_columns lcd_rows : Nat) (now : Int) : LCDState :=
  { address := i2c_address
    lcd_columns := lcd_columns
    lcd_rows := lcd_rows
    last_refreshed := now
    index := 0
    displayControl := LCD_DISPLAYON ||| LCD_CURSOROFF ||| LCD_BLINKOFF
    displayMode := LCD_ENTRYLEFT ||| LCD_ENTRYSHIFTDECREMENT }

/-! ### The methods.  Each definition mirrors one method of the class;
`ok` (or `ok0 ok1 ok2` for `begin`) is the transport outcome of the
write(s) whose result the method observes. -/

/-- `begin(self)`: sends display control, entry mode, then clears, and
returns the conjunction of the three transport results. -/
def begin (s : LCDState) (ok0 ok1 ok2 : Bool) : OpResult :=
  { state := s
    sends := [Sent.cmds [SPECIAL_COMMAND, LCD_DISPLAYCONTROL ||| s.displayControl],
              Sent.cmds [SPECIAL_COMMAND, LCD_ENTRYMODESET ||| s.displayMode],
              Sent.cmds [SETTING_COMMAND, CLEAR_COMMAND]],
    ret := some (ok0 && ok1 && ok2) }

/-- `display(self, message)`: clear, then send the message truncated to
`lcd_columns*lcd_rows` characters.  Both write results are discarded and
the method returns `None`. -/
def display (s : LCDState) (message : List Char) : OpResult :=
  { state := s
    sends := [Sent.cmds [SETTING_COMMAND, CLEAR_COMMAND],
              Sent.text (pySlice message 0 (s.lcd_columns * s.lcd_rows))],
    ret := none }

/-- `append_display(self, message)`: send the raw text, propagating the
transport result. -/
def append_display (s : LCDState) (ok : Bool) (message : List Char) : OpResult :=
  { state := s, sends := [Sent.text message], ret := some ok }

/-- `display_lines(self, first_line, second_line)`: truncate each line to
`lcd_columns`, pad the first with spaces up to `lcd_columns` (the `for i
in range(len(line_1), self.lcd_columns)` loop appends one space per
missing column), then `display` the concatenation.  Returns `None`. -/
def display_lines (s : LCDState) (first_line second_line : List Char) : OpResult :=
  let line_1 := pySlice first_line 0 s.lcd_columns
  let line_2 := pySlice second_line 0 s.lcd_columns
  let line_1 := line_1 ++ List.replicate (s.lcd_columns - line_1.length) ' '
  display s (line_1 ++ line_2)

/-- `display_scrolling(self, message, duration)`: when the elapsed ticks
since the last refresh exceed `duration`, compose the visible window,
`display` it, stamp `last_refreshed`, advance `index` and wrap it to 0
once it exceeds the message length; otherwise do nothing.  Returns
`None` either way.  `now` stands for `utime.ticks_ms()`. -/
def display_scrolling (s : LCDState) (now : Int) (message : List Char) (duration : Int) :
    OpResult :=
  if ticks_diff now s.last_refreshed > duration then
    let W := s.lcd_columns * s.lcd_rows
    let visible_message := pySlice message s.index (W + s.index)
    let visible_message :=
      if W + s.index > message.length then
        visible_message ++ pySlice message 0 (W + s.index - message.length)
      else visible_message
    let d := display s visible_message
    let index1 := s.index + 1
    let index2 := if index1 > message.length then 0 else index1
    { state := { s with last_refreshed := now, index := index2 }
      sends := d.sends
      ret := none }
  else
    { state := s, sends := [], ret := none }

/-- `clear_display(self)`. -/
def clear_display (s : LCDState) (ok : Bool) : OpResult :=
  { state := s, sends := [Sent.cmds [SETTING_COMMAND, CLEAR_COMMAND]], ret := some ok }

/-- `set_contrast(self, contrast)`. -/
def set_contrast (s : LCDState) (ok : Bool) (contrast : Nat) : OpResult :=
  { state := s
    sends := [Sent.cmds [SETTING_COMMAND, CONTRAST_COMMAND, contrast]]
    ret := some ok }

/-- `set_rgb_backlight(self, r, g, b)`. -/
def set_rgb_backlight (s : LCDState) (ok : Bool) (r g b : Nat) : OpResult :=
  { state := s
    sends := [Sent.cmds [SETTING_COMMAND, SET_RGB_COMMAND, r, g, b]]
    ret := some ok }

/-- The local `row_offsets` table of `set_cursor`. -/
def row_offsets : List Nat := [0x00, 0x40, 0x14, 0x54]

/-- `set_cursor(self, col, row)`: clamp `row` with `max 0` then
`min (MAX_ROWS - 1)` and send the DDRAM address command; `col` is used as
given.  Rows are Python ints, hence `Int` here; the clamped row is in
`[0, 3]`, so indexing the table with its `toNat` is the Python list
indexing. -/
def set_cursor (s : LCDState) (ok : Bool) (col : Nat) (row : Int) : OpResult :=
  let row := max 0 row
  let row := min row ((MAX_ROWS : Int) - 1)
  { state := s
    sends := [Sent.cmds [SPECIAL_COMMAND,
                LCD_SETDDRAMADDR ||| (col + row_offsets.getD row.toNat 0)]]
    ret := some ok }

/-- `enable_cursor(self)`: set the cursor bit, then send the full
display-control command. -/
def enable_cursor (s : LCDState) (ok : Bool) : OpResult :=
  let dc := s.displayControl ||| LCD_CURSORON
  { state := { s with displayControl := dc }
    sends := [Sent.cmds [SPECIAL_COMMAND, LCD_DISPLAYCONTROL ||| dc]]
    ret := some ok }

/-- `disable_cursor(self)`: clear the cursor bit, then send the full
display-control command. -/
def disable_cursor (s : LCDState) (ok : Bool) : OpResult :=
  let dc := clearBits s.displayControl LCD_CURSORON
  { state := { s with displayControl := dc }
    sends := [Sent.cmds [SPECIAL_COMMAND, LCD_DISPLAYCONTROL ||| dc]]
    ret := some ok }

/-- `enable_cursor_blink(self)`. -/
def enable_cursor_blink (s : LCDState) (ok : Bool) : OpResult :=
  let dc := s.displayControl ||| LCD_BLINKON
  { state := { s with displayControl := dc }
    sends := [Sent.cmds [SPECIAL_COMMAND, LCD_DISPLAYCONTROL ||| dc]]
    ret := some ok }

/-- `disable_cursor_blink(self)`. -/
def disable_cursor_blink (s : LCDState) (ok : Bool) : OpResult :=
  let dc := clearBits s.displayControl LCD_BLINKON
  { state := { s with displayControl := dc }
    sends := [Sent.cmds [SPECIAL_COMMAND, LCD_DISPLAYCONTROL ||| dc]]
    ret := some ok }

/-- `enable_display(self)`. -/
def enable_display (s : LCDState) (ok : Bool) : OpResult :=
  let dc := s.displayControl ||| LCD_DISPLAYON
  { state := { s with displayControl := dc }
    sends := [Sent.cmds [SPECIAL_COMMAND, LCD_DISPLAYCONTROL ||| dc]]
    ret := some ok }

/-- `disable_display(self)`. -/
def disable_display (s : LCDState) (ok : Bool) : OpResult :=
  let dc := clearBits s.displayControl LCD_DISPLAYON
  { state := { s with displayControl := dc }
    sends := [Sent.cmds [SPECIAL_COMMAND, LCD_DISPLAYCONTROL ||| dc]]
    ret := some ok }

/-- `enable_system_messages(self)`. -/
def enable_system_messages (s : LCDState) (ok : Bool) : OpResult :=
  { state := s
    sends := [Sent.cmds [SETTING_COMMAND, ENABLE_SYSTEM_MESSAGE_DISPLAY]]
    ret := some ok }

/-- `disable_system_messages(self)`. -/
def disable_system_messages (s : LCDState) (ok : Bool) : OpResult :=
  { state := s
    sends := [Sent.cmds [SETTING_COMMAND, DISABLE_SYSTEM_MESSAGE_DISPLAY]]
    ret := some ok }

/-- `enable_splash(self)`. -/
def enable_splash (s : LCDState) (ok : Bool) : OpResult :=
  { state := s
    sends := [Sent.cmds [SETTING_COMMAND, ENABLE_SPLASH_DISPLAY]]
    ret := some ok }

/-- `disable_splash(self)`. -/
def disable_splash (s : LCDState) (ok : Bool) : OpResult :=
  { state := s
    sends := [Sent.cmds [SETTING_COMMAND, DISABLE_SPLASH_DISPLAY]]
    ret := some ok }

/-- `save_splash(self)`. -/
def save_splash (s : LCDState) (ok : Bool) : OpResult :=
  { state := s
    sends := [Sent.cmds [SETTING_COMMAND, SAVE_CURRENT_DISPLAY_AS_SPLASH]]
    ret := some ok }

/-- `set_address(self, new_address)`: send the address-change command,
then unconditionally overwrite the stored address, and return the
transport result of the write. -/
def set_address (s : LCDState) (ok : Bool) (new_address : Nat) : OpResult :=
  { state := { s with address := new_address }
    sends := [Sent.cmds [SETTING_COMMAND, ADDRESS_COMMAND, new_address]]
    ret := some ok }

/-- The class attribute `_defaultValue`. -/
def defaultValue : Nat := 20

/-- `default_settings(self)`: run the eight sub-operations in order,
threading the handle state; every sub-result is discarded by the source
and the method returns `None`, so the transport outcomes are
unobservable and each sub-call gets an arbitrary fixed outcome. -/
def default_settings (s : LCDState) : OpResult :=
  let r1 := disable_display s true
  let r2 := disable_system_messages r1.state true
  let r3 := set_contrast r2.state true defaultValue
  let r4 := set_rgb_backlight r3.state true defaultValue defaultValue defaultValue
  let r5 := enable_splash r4.state true
  let r6 := clear_display r5.state true
  let r7 := enable_system_messages r6.state true
  let r8 := enable_display r7.state true
  { state := r8.state
    sends := r1.sends ++ r2.sends ++ r3.sends ++ r4.sends ++ r5.sends ++
             r6.sends ++ r7.sends ++ r8.sends
    ret := none }

/-! ### The six display-control toggles, reified for the algebraic claims -/

/-- One of the six cursor/blink/display toggle methods. -/
inductive Toggle where
  | enableCursor
  | disableCursor
  | enableBlink
  | disableBlink
  | enableDisp
  | disableDisp
deriving DecidableEq, Repr

/-- The display-control bit a toggle manipulates. -/
def flagBit : Toggle → Nat
  | .enableCursor => LCD_CURSORON
  | .disableCursor => LCD_CURSORON
  | .enableBlink => LCD_BLINKON
  | .disableBlink => LCD_BLINKON
  | .enableDisp => LCD_DISPLAYON
  | .disableDisp => LCD_DISPLAYON

/-- The read-modify-write a toggle performs on `_displayControl`. -/
def applyToggle : Toggle → Nat → Nat
  | .enableCursor, f => f ||| LCD_CURSORON
  | .disableCursor, f => clearBits f LCD_CURSORON
  | .enableBlink, f => f ||| LCD_BLINKON
  | .disableBlink, f => clearBits f LCD_BLINKON
  | .enableDisp, f => f ||| LCD_DISPLAYON
  | .disableDisp, f => clearBits f LCD_DISPLAYON

/-- Dispatch a toggle to the corresponding method. -/
def runToggle (s : LCDState) (ok : Bool) : Toggle → OpResult
  | .enableCursor => enable_cursor s ok
  | .disableCursor => disable_cursor s ok
  | .enableBlink => enable_cursor_blink s ok
  | .disableBlink => disable_cursor_blink s ok
  | .enableDisp => enable_display s ok
  | .disableDisp => disable_display s ok

/-- Run a sequence of toggle methods on a handle. -/
def runToggles (s : LCDState) (ok : Bool) (ts : List Toggle) : LCDState :=
  ts.foldl (fun st t => (runToggle st ok t).state) s

/-- The bitfield accumulated from a sequence of toggles. -/
def foldToggles (f : Nat) (ts : List Toggle) : Nat :=
  ts.foldl (fun g t => applyToggle t g) f

theorem runToggle_displayControl (s : LCDState) (ok : Bool) (t : Toggle) :
    (runToggle s ok t).state.displayControl = applyToggle t s.displayControl := by
  cases t <;> rfl

theorem runToggle_sends (s : LCDState) (ok : Bool) (t : Toggle) :
    (runToggle s ok t).sends =
      [Sent.cmds [SPECIAL_COMMAND, LCD_DISPLAYCONTROL ||| applyToggle t s.displayControl]] := by
  cases t <;> rfl

theorem runToggles_displayControl (ok : Bool) (ts : List Toggle) :
    ∀ s : LCDState, (runToggles s ok ts).displayControl = foldToggles s.displayControl ts := by
  induction ts with
  | nil => intro s; rfl
  | cons t ts ih =>
      intro s
      have h1 : runToggles s ok (t :: ts) = runToggles (runToggle s ok t).state ok ts := rfl
      have h2 : foldToggles s.displayControl (t :: ts)
          = foldToggles (applyToggle t s.displayControl) ts := rfl
      rw [h1, h2, ih, runToggle_displayControl]

theorem applyToggle_lt_eight (t : Toggle) : ∀ f < 8, applyToggle t f < 8 := by
  cases t <;> decide

theorem foldToggles_lt_eight (ts : List Toggle) : ∀ f < 8, foldToggles f ts < 8 := by
  induction ts with
  | nil => intro f hf; exact hf
  | cons t ts ih => intro f hf; exact ih _ (applyToggle_lt_eight t f hf)

/-! ### The scrolling window, as the spec words it -/

/-- Modelled from the wording of the spec for comparison with
`display_scrolling`: the visible window is the concatenation of
`message[index : index + W]` and, when that run overruns the message
length, of `message[0 : overrun]`. -/
def scrollWindow (message : List Char) (index W : Nat) : List Char :=
  let v := pySlice message index (W + index)
  if W + index > message.length then
    v ++ pySlice message 0 (W + index - message.length)
  else v

theorem scrollWindow_length (message : List Char) (index W : Nat)
    (h : index ≤ message.length) :
    (scrollWindow message index W).length = min W (2 * message.length - index) := by
  unfold scrollWindow pySlice
  split <;> simp only [List.length_append, List.length_take, List.length_drop] <;> omega

/-- On a due call, `display_scrolling` displays exactly the spec window,
stamps the refresh time and advances-and-wraps the index. -/
theorem display_scrolling_due (s : LCDState) (now : Int) (message : List Char)
    (duration : Int) (hdue : ticks_diff now s.last_refreshed > duration) :
    display_scrolling s now message duration =
      { state := { s with last_refreshed := now,
                          index := if s.index + 1 > message.length then 0 else s.index + 1 }
        sends := (display s (scrollWindow message s.index (s.lcd_columns * s.lcd_rows))).sends
        ret := none } := by
  unfold display_scrolling scrollWindow
  rw [if_pos hdue]

theorem display_sends_of_short (s : LCDState) (w : List Char)
    (h : w.length ≤ s.lcd_columns * s.lcd_rows) :
    (display s w).sends =
      [Sent.cmds [SETTING_COMMAND, CLEAR_COMMAND], Sent.text w] := by
  unfold display pySlice
  simp only [List.drop_zero, Nat.sub_zero, List.take_of_length_le h]

/-! ### Claim theorems -/

/-- C1, counterexample: on a handle at address 0x72, a `set_address(0x50)`
call whose transport write fails still overwrites the locally stored
address with 0x50, so the stored address does not remain at the old
address as claimed. -/
theorem C1_counterexample :
    (set_address (initState 0x72 16 2 0) false 0x50).ret = some false ∧
    (set_address (initState 0x72 16 2 0) false 0x50).state.address ≠
      (initState 0x72 16 2 0).address := by
  decide

/-- C1, amended: `set_address(new_address)` stores `new_address` into the
handle unconditionally — after the call the stored address equals
`new_address` whether the transport write failed or succeeded — and it
returns the transport result of the write. -/
theorem C1_set_address_unconditional (s : LCDState) (ok : Bool) (new_address : Nat) :
    (set_address s ok new_address).state.address = new_address ∧
    (set_address s ok new_address).ret = some ok ∧
    (set_address s ok new_address).state = { s with address := new_address } :=
  ⟨rfl, rfl, rfl⟩

/-- C2, counterexample: `enable_cursor` on a freshly constructed handle
whose transport write fails does return the failure, but the
display-control bitfield has already been changed (from 0x04 to 0x06), so
the DisplayState is not left exactly as it was before the call. -/
theorem C2_counterexample :
    (enable_cursor (initState 0x72 16 2 0) false).ret = some false ∧
    (enable_cursor (initState 0x72 16 2 0) false).state.displayControl ≠
      (initState 0x72 16 2 0).displayControl := by
  decide

/-- C2, amended: when the transport write fails, every result-returning
operation returns that failure unchanged and leaves the scroll index and
last-refresh timestamp untouched; the non-toggle operations leave the
whole DisplayState untouched, but the six display/cursor/blink toggles
have already applied the toggle to the control flags before the write,
and the compound void operations discard transport results entirely — a
due `display_scrolling` call advances the scroll state whether or not
its writes succeed and returns no failure. -/
theorem C2_failure_behaviour (s : LCDState) (now : Int) (message : List Char)
    (duration : Int) (contrast r g b col a : Nat) (row : Int)
    (hdue : ticks_diff now s.last_refreshed > duration) :
    ((clear_display s false).ret = some false ∧ (clear_display s false).state = s) ∧
    ((set_contrast s false contrast).ret = some false ∧
      (set_contrast s false contrast).state = s) ∧
    ((set_rgb_backlight s false r g b).ret = some false ∧
      (set_rgb_backlight s false r g b).state = s) ∧
    ((set_cursor s false col row).ret = some false ∧
      (set_cursor s false col row).state = s) ∧
    ((append_display s false message).ret = some false ∧
      (append_display s false message).state = s) ∧
    ((enable_system_messages s false).ret = some false ∧
      (enable_system_messages s false).state = s) ∧
    ((disable_system_messages s false).ret = some false ∧
      (disable_system_messages s false).state = s) ∧
    ((enable_splash s false).ret = some false ∧ (enable_splash s false).state = s) ∧
    ((disable_splash s false).ret = some false ∧ (disable_splash s false).state = s) ∧
    ((save_splash s false).ret = some false ∧ (save_splash s false).state = s) ∧
    ((set_address s false a).ret = some false ∧
      (set_address s false a).state.index = s.index ∧
      (set_address s false a).state.last_refreshed = s.last_refreshed ∧
      (set_address s false a).state.displayControl = s.displayControl) ∧
    (∀ t : Toggle,
      (runToggle s false t).ret = some false ∧
      (runToggle s false t).state.index = s.index ∧
      (runToggle s false t).state.last_refreshed = s.last_refreshed ∧
      (runToggle s false t).state.displayControl = applyToggle t s.displayControl) ∧
    ((display_scrolling s now message duration).ret = none ∧
      (display_scrolling s now message duration).state.last_refreshed = now) := by
  refine ⟨⟨rfl, rfl⟩, ⟨rfl, rfl⟩, ⟨rfl, rfl⟩, ⟨rfl, rfl⟩, ⟨rfl, rfl⟩, ⟨rfl, rfl⟩,
    ⟨rfl, rfl⟩, ⟨rfl, rfl⟩, ⟨rfl, rfl⟩, ⟨rfl, rfl⟩, ⟨rfl, rfl, rfl, rfl⟩, ?_, ?_⟩
  · intro t; cases t <;> exact ⟨rfl, rfl, rfl, rfl⟩
  · rw [display_scrolling_due s now message duration hdue]
    exact ⟨rfl, rfl⟩

/-- C2, witness: the amended statement applied to a freshly constructed
handle with a due scrolling call. -/
theorem C2_witness :
    ticks_diff 1 (initState 0x72 16 2 0).last_refreshed > 0 ∧
    ((clear_display (initState 0x72 16 2 0) false).ret = some false ∧
      (clear_display (initState 0x72 16 2 0) false).state = initState 0x72 16 2 0) :=
  ⟨by decide,
   (C2_failure_behaviour (initState 0x72 16 2 0) 1 [] 0 0 0 0 0 0 0 0 (by decide)).1⟩

/-- C3: on a due `display_scrolling(message, duration)` call the driver
displays exactly the window formed by `message[index : index + W]`
followed, when that run overruns the end of the message, by
`message[0 : overrun]` (with `W = columns * rows`); afterwards the index
has advanced by one, wrapping to 0 once it exceeds the message length,
so it stays in `[0, length message]`, and the last-refresh timestamp is
updated to the current ticks. -/
theorem C3_display_scrolling_window (s : LCDState) (now : Int) (message : List Char)
    (duration : Int) (hdue : ticks_diff now s.last_refreshed > duration)
    (hidx : s.index ≤ message.length) :
    (display_scrolling s now message duration).sends =
      [Sent.cmds [SETTING_COMMAND, CLEAR_COMMAND],
       Sent.text (scrollWindow message s.index (s.lcd_columns * s.lcd_rows))] ∧
    (display_scrolling s now message duration).state.index =
      (if s.index + 1 > message.length then 0 else s.index + 1) ∧
    (display_scrolling s now message duration).state.index ≤ message.length ∧
    (display_scrolling s now message duration).state.last_refreshed = now := by
  rw [display_scrolling_due s now message duration hdue]
  refine ⟨?_, rfl, ?_, rfl⟩
  · exact display_sends_of_short s _
      (by rw [scrollWindow_length message s.index _ hidx]; omega)
  · show (if s.index + 1 > message.length then 0 else s.index + 1) ≤ message.length
    split <;> omega

/-- C3, witness: the scrolling step on a 3-column, 1-row handle showing
the message ABCDE at index 0. -/
theorem C3_witness :
    ticks_diff 1 (initState 0x72 3 1 0).last_refreshed > 0 ∧
    (initState 0x72 3 1 0).index ≤ "ABCDE".toList.length ∧
    (display_scrolling (initState 0x72 3 1 0) 1 "ABCDE".toList 0).sends =
      [Sent.cmds [SETTING_COMMAND, CLEAR_COMMAND],
       Sent.text (scrollWindow "ABCDE".toList (initState 0x72 3 1 0).index
         ((initState 0x72 3 1 0).lcd_columns * (initState 0x72 3 1 0).lcd_rows))] :=
  ⟨by decide, by decide,
   (C3_display_scrolling_window (initState 0x72 3 1 0) 1 "ABCDE".toList 0
     (by decide) (by decide)).1⟩

/-- C4, counterexample: on a 3-column, 1-row handle (window length 3)
scrolling the 2-character message AB, the index 2 is reached after two
due calls, and the due call at index 2 displays the 2-character window
AB, not a window of length `columns * rows = 3`. -/
theorem C4_counterexample :
    (let s0 := initState 0x72 3 1 0
     let s1 := (display_scrolling s0 1 "AB".toList 0).state
     let s2 := (display_scrolling s1 2 "AB".toList 0).state
     s2.index = 2 ∧
     (display_scrolling s2 3 "AB".toList 0).sends =
       [Sent.cmds [SETTING_COMMAND, CLEAR_COMMAND], Sent.text "AB".toList] ∧
     ("AB".toList.length ≠ s0.lcd_columns * s0.lcd_rows) ∧
     s0.lcd_columns * s0.lcd_rows = 3) := by
  decide

/-- C4, amended: on a due call with index at most the message length, the
window displayed by `display_scrolling` has length
`min (columns * rows) (2 * length message - index)`; in particular it
has length exactly `columns * rows` whenever the message is at least
`columns * rows` characters long, but for shorter messages the window
can be shorter. -/
theorem C4_window_length (s : LCDState) (now : Int) (message : List Char)
    (duration : Int) (hdue : ticks_diff now s.last_refreshed > duration)
    (hidx : s.index ≤ message.length) :
    (display_scrolling s now message duration).sends =
      [Sent.cmds [SETTING_COMMAND, CLEAR_COMMAND],
       Sent.text (scrollWindow message s.index (s.lcd_columns * s.lcd_rows))] ∧
    (scrollWindow message s.index (s.lcd_columns * s.lcd_rows)).length =
      min (s.lcd_columns * s.lcd_rows) (2 * message.length - s.index) ∧
    (s.lcd_columns * s.lcd_rows ≤ message.length →
      (scrollWindow message s.index (s.lcd_columns * s.lcd_rows)).length =
        s.lcd_columns * s.lcd_rows) := by
  have hlen := scrollWindow_length message s.index (s.lcd_columns * s.lcd_rows) hidx
  refine ⟨?_, hlen, fun hW => ?_⟩
  · rw [display_scrolling_due s now message duration hdue]
    exact display_sends_of_short s _ (by rw [hlen]; omega)
  · rw [hlen]; omega

/-- C4, witness: the amended statement on a 3-column, 1-row handle with
the 5-character message ABCDE, whose window length is exactly 3. -/
theorem C4_witness :
    ticks_diff 1 (initState 0x72 3 1 0).last_refreshed > 0 ∧
    (initState 0x72 3 1 0).index ≤ "ABCDE".toList.length ∧
    (initState 0x72 3 1 0).lcd_columns * (initState 0x72 3 1 0).lcd_rows ≤
      "ABCDE".toList.length ∧
    (scrollWindow "ABCDE".toList (initState 0x72 3 1 0).index
        ((initState 0x72 3 1 0).lcd_columns * (initState 0x72 3 1 0).lcd_rows)).length =
      (initState 0x72 3 1 0).lcd_columns * (initState 0x72 3 1 0).lcd_rows :=
  ⟨by decide, by decide, by decide,
   (C4_window_length (initState 0x72 3 1 0) 1 "ABCDE".toList 0
     (by decide) (by decide)).2.2 (by decide)⟩

/-- C5, counterexample: the accumulation of toggles is not
order-independent — starting from the initial bitfield, running
`enable_cursor` then `disable_cursor` leaves the control flags at 0x04,
while the reversed order leaves them at 0x06. -/
theorem C5_counterexample :
    foldToggles (LCD_DISPLAYON ||| LCD_CURSOROFF ||| LCD_BLINKOFF)
        [Toggle.enableCursor, Toggle.disableCursor] ≠
      foldToggles (LCD_DISPLAYON ||| LCD_CURSOROFF ||| LCD_BLINKOFF)
        [Toggle.disableCursor, Toggle.enableCursor] ∧
    (runToggles (initState 0x72 16 2 0) true
        [Toggle.enableCursor, Toggle.disableCursor]).displayControl = 0x04 ∧
    (runToggles (initState 0x72 16 2 0) true
        [Toggle.disableCursor, Toggle.enableCursor]).displayControl = 0x06 := by
  decide

/-- C5, amended: every toggle sends exactly the byte pair
`SPECIAL_COMMAND, LCD_DISPLAYCONTROL ||| flags` where `flags` is the
bitfield obtained by folding all prior toggles over the initial
display-on bitfield; each toggle is idempotent (repeating it leaves the
bitfield unchanged) and toggles on distinct flags commute, but enabling
and disabling the same flag is order-sensitive (the last toggle of a
flag wins), so the accumulation is order-independent only across
distinct flags. -/
theorem C5_toggle_algebra (s : LCDState) (ok : Bool) (ts : List Toggle)
    (t t2 : Toggle) (f : Nat) (hf : f < 8) (hne : flagBit t ≠ flagBit t2) :
    (runToggle s ok t).sends =
      [Sent.cmds [SPECIAL_COMMAND, LCD_DISPLAYCONTROL ||| applyToggle t s.displayControl]] ∧
    (runToggle s ok t).state.displayControl = applyToggle t s.displayControl ∧
    (runToggles s ok ts).displayControl = foldToggles s.displayControl ts ∧
    applyToggle t (applyToggle t f) = applyToggle t f ∧
    applyToggle t (applyToggle t2 f) = applyToggle t2 (applyToggle t f) := by
  refine ⟨runToggle_sends s ok t, runToggle_displayControl s ok t,
    runToggles_displayControl ok ts s, ?_, ?_⟩
  · clear hne; revert hf; cases t <;> revert f <;> decide
  · cases t <;> cases t2 <;>
      first
        | exact absurd rfl hne
        | (clear hne; revert hf; revert f; decide)

/-- C5, witness: the amended statement at the cursor and blink toggles on
the freshly initialized bitfield. -/
theorem C5_witness :
    (4 : Nat) < 8 ∧
    flagBit Toggle.enableCursor ≠ flagBit Toggle.enableBlink ∧
    applyToggle Toggle.enableCursor (applyToggle Toggle.enableBlink 4) =
      applyToggle Toggle.enableBlink (applyToggle Toggle.enableCursor 4) :=
  ⟨by decide, by decide,
   (C5_toggle_algebra (initState 0x72 16 2 0) true [] Toggle.enableCursor
     Toggle.enableBlink 4 (by decide) (by decide)).2.2.2.2⟩

/-- C6: `set_cursor(col, row)` clamps the row into `[0, 3]`, leaves the
column unclamped and unvalidated, and sends the special command
`SPECIAL_COMMAND, LCD_SETDDRAMADDR ||| (col + offset)` with the offset
looked up in the table 0x00, 0x40, 0x14, 0x54 at the clamped row; in
particular row -1 resolves like row 0 and row 4 like row 3. -/
theorem C6_set_cursor (s : LCDState) (ok : Bool) (col : Nat) (row : Int) :
    (set_cursor s ok col row).sends =
      [Sent.cmds [SPECIAL_COMMAND,
        LCD_SETDDRAMADDR |||
          (col + row_offsets.getD (min (max 0 row) ((MAX_ROWS : Int) - 1)).toNat 0)]] ∧
    0 ≤ min (max 0 row) ((MAX_ROWS : Int) - 1) ∧
    min (max 0 row) ((MAX_ROWS : Int) - 1) ≤ 3 ∧
    (set_cursor s ok col (-1)).sends =
      [Sent.cmds [SPECIAL_COMMAND, LCD_SETDDRAMADDR ||| (col + 0x00)]] ∧
    (set_cursor s ok col 0).sends =
      [Sent.cmds [SPECIAL_COMMAND, LCD_SETDDRAMADDR ||| (col + 0x00)]] ∧
    (set_cursor s ok col 1).sends =
      [Sent.cmds [SPECIAL_COMMAND, LCD_SETDDRAMADDR ||| (col + 0x40)]] ∧
    (set_cursor s ok col 2).sends =
      [Sent.cmds [SPECIAL_COMMAND, LCD_SETDDRAMADDR ||| (col + 0x14)]] ∧
    (set_cursor s ok col 3).sends =
      [Sent.cmds [SPECIAL_COMMAND, LCD_SETDDRAMADDR ||| (col + 0x54)]] ∧
    (set_cursor s ok col 4).sends =
      [Sent.cmds [SPECIAL_COMMAND, LCD_SETDDRAMADDR ||| (col + 0x54)]] ∧
    (set_cursor s ok col row).state = s ∧
    (set_cursor s ok col row).ret = some ok := by
  refine ⟨rfl, ?_, ?_, rfl, rfl, rfl, rfl, rfl, rfl, rfl, rfl⟩
  · simp only [MAX_ROWS]; omega
  · simp only [MAX_ROWS]; omega

/-- C7: `display(text)` first sends the clear command and then exactly
the first `columns * rows` characters of the text, never padding;
on a 16-by-2 handle, `display` of Hello sends the clear command and then
exactly the 5 characters Hello. -/
theorem C7_display_truncates (s : LCDState) (message : List Char) :
    (display s message).sends =
      [Sent.cmds [SETTING_COMMAND, CLEAR_COMMAND],
       Sent.text (message.take (s.lcd_columns * s.lcd_rows))] ∧
    (message.take (s.lcd_columns * s.lcd_rows)).length ≤ s.lcd_columns * s.lcd_rows ∧
    (display (initState 0x72 16 2 0) "Hello".toList).sends =
      [Sent.cmds [SETTING_COMMAND, CLEAR_COMMAND], Sent.text "Hello".toList] ∧
    "Hello".toList.length = 5 := by
  refine ⟨?_, ?_, by decide, by decide⟩
  · unfold display pySlice
    simp only [List.drop_zero, Nat.sub_zero]
  · simp only [List.length_take]
    omega

/-- C8: `display_lines(line1, line2)` truncates each line independently
to `columns` characters, pads the first line with spaces to exactly
`columns` characters, and displays the concatenation of the two; on a
4-column handle the lines AB and CD produce the payload AB, two spaces,
CD. -/
theorem C8_display_lines_pads (s : LCDState) (first_line second_line : List Char) :
    display_lines s first_line second_line =
      display s ((pySlice first_line 0 s.lcd_columns ++
        List.replicate
          (s.lcd_columns - (pySlice first_line 0 s.lcd_columns).length) ' ') ++
        pySlice second_line 0 s.lcd_columns) ∧
    (pySlice first_line 0 s.lcd_columns ++
      List.replicate
        (s.lcd_columns - (pySlice first_line 0 s.lcd_columns).length) ' ').length =
      s.lcd_columns ∧
    (display_lines (initState 0x72 4 2 0) "AB".toList "CD".toList).sends =
      [Sent.cmds [SETTING_COMMAND, CLEAR_COMMAND], Sent.text "AB  CD".toList] := by
  refine ⟨rfl, ?_, by decide⟩
  · simp only [pySlice, List.length_append, List.length_take, List.length_drop,
      List.length_replicate, Nat.sub_zero, List.drop_zero]
    omega

/-- C9, counterexample: `display` is a public operation other than
`begin`, yet it performs two transport writes, not one, and returns
`None` rather than any transport result. -/
theorem C9_counterexample :
    (display (initState 0x72 16 2 0) "Hello".toList).ret = none ∧
    (display (initState 0x72 16 2 0) "Hello".toList).sends.length = 2 := by
  decide

/-- C9, amended: every public operation other than `begin` that performs
a single transport write returns exactly that transport result
unchanged; the compound operations `display`, `display_lines`,
`display_scrolling` and `default_settings` instead perform several (or,
for a non-due scrolling call, zero) writes, discard every transport
result, and return `None`. -/
theorem C9_result_propagation (s : LCDState) (ok : Bool) (message l2 : List Char)
    (contrast r g b col a : Nat) (row : Int) (now duration : Int) :
    ((append_display s ok message).ret = some ok ∧
      (append_display s ok message).sends.length = 1) ∧
    ((clear_display s ok).ret = some ok ∧ (clear_display s ok).sends.length = 1) ∧
    ((set_contrast s ok contrast).ret = some ok ∧
      (set_contrast s ok contrast).sends.length = 1) ∧
    ((set_rgb_backlight s ok r g b).ret = some ok ∧
      (set_rgb_backlight s ok r g b).sends.length = 1) ∧
    ((set_cursor s ok col row).ret = some ok ∧
      (set_cursor s ok col row).sends.length = 1) ∧
    (∀ t : Toggle, (runToggle s ok t).ret = some ok ∧
      (runToggle s ok t).sends.length = 1) ∧
    ((enable_system_messages s ok).ret = some ok ∧
      (enable_system_messages s ok).sends.length = 1) ∧
    ((disable_system_messages s ok).ret = some ok ∧
      (disable_system_messages s ok).sends.length = 1) ∧
    ((enable_splash s ok).ret = some ok ∧ (enable_splash s ok).sends.length = 1) ∧
    ((disable_splash s ok).ret = some ok ∧ (disable_splash s ok).sends.length = 1) ∧
    ((save_splash s ok).ret = some ok ∧ (save_splash s ok).sends.length = 1) ∧
    ((set_address s ok a).ret = some ok ∧ (set_address s ok a).sends.length = 1) ∧
    (display s message).ret = none ∧
    (display_lines s message l2).ret = none ∧
    (display_scrolling s now message duration).ret = none ∧
    ((default_settings s).ret = none ∧ (default_settings s).sends.length = 8) := by
  refine ⟨⟨rfl, rfl⟩, ⟨rfl, rfl⟩, ⟨rfl, rfl⟩, ⟨rfl, rfl⟩, ⟨rfl, rfl⟩, ?_,
    ⟨rfl, rfl⟩, ⟨rfl, rfl⟩, ⟨rfl, rfl⟩, ⟨rfl, rfl⟩, ⟨rfl, rfl⟩, ⟨rfl, rfl⟩,
    rfl, rfl, ?_, ⟨rfl, rfl⟩⟩
  · intro t; cases t <;> exact ⟨rfl, rfl⟩
  · unfold display_scrolling
    split <;> rfl

/-- C10: on a handle constructed with a single row, `display_lines`
routes its padded concatenation through `display`, which truncates the
payload to `columns * rows = columns` characters, so the text actually
sent is exactly the padded first line and the second line is dropped
entirely, never reaching the peripheral. -/
theorem C10_single_row_drops_second_line (s : LCDState)
    (first_line second_line : List Char) (hrows : s.lcd_rows = 1) :
    (display_lines s first_line second_line).sends =
      [Sent.cmds [SETTING_COMMAND, CLEAR_COMMAND],
       Sent.text (pySlice first_line 0 s.lcd_columns ++
         List.replicate
           (s.lcd_columns - (pySlice first_line 0 s.lcd_columns).length) ' ')] := by
  have hpad : (pySlice first_line 0 s.lcd_columns ++
      List.replicate
        (s.lcd_columns - (pySlice first_line 0 s.lcd_columns).length) ' ').length =
      s.lcd_columns := by
    simp only [pySlice, List.length_append, List.length_take, List.length_drop,
      List.length_replicate, Nat.sub_zero, List.drop_zero]
    omega
  have base : (display_lines s first_line second_line).sends =
      [Sent.cmds [SETTING_COMMAND, CLEAR_COMMAND],
       Sent.text (pySlice ((pySlice first_line 0 s.lcd_columns ++
         List.replicate
           (s.lcd_columns - (pySlice first_line 0 s.lcd_columns).length) ' ') ++
         pySlice second_line 0 s.lcd_columns) 0 (s.lcd_columns * s.lcd_rows))] := rfl
  have htext : pySlice ((pySlice first_line 0 s.lcd_columns ++
      List.replicate
        (s.lcd_columns - (pySlice first_line 0 s.lcd_columns).length) ' ') ++
      pySlice second_line 0 s.lcd_columns) 0 (s.lcd_columns * s.lcd_rows) =
      pySlice first_line 0 s.lcd_columns ++
        List.replicate
          (s.lcd_columns - (pySlice first_line 0 s.lcd_columns).length) ' ' := by
    rw [hrows, Nat.mul_one]
    show (((pySlice first_line 0 s.lcd_columns ++
      List.replicate
        (s.lcd_columns - (pySlice first_line 0 s.lcd_columns).length) ' ') ++
      pySlice second_line 0 s.lcd_columns).drop 0).take (s.lcd_columns - 0) = _
    simp only [List.drop_zero, Nat.sub_zero]
    nth_rewrite 1 [← hpad]
    exact List.take_left _ _
  rw [base, htext]

/-- C10, witness: a 4-column, single-row handle given the lines AB and
CD sends only the padded first line. -/
theorem C10_witness :
    (initState 0x72 4 1 0).lcd_rows = 1 ∧
    (display_lines (initState 0x72 4 1 0) "AB".toList "CD".toList).sends =
      [Sent.cmds [SETTING_COMMAND, CLEAR_COMMAND],
       Sent.text (pySlice "AB".toList 0 (initState 0x72 4 1 0).lcd_columns ++
         List.replicate ((initState 0x72 4 1 0).lcd_columns -
           (pySlice "AB".toList 0 (initState 0x72 4 1 0).lcd_columns).length) ' ')] :=
  ⟨rfl, C10_single_row_drops_second_line (initState 0x72 4 1 0)
    "AB".toList "CD".toList rfl⟩

end SerLCD
